import Mathlib

/-!
# Verification of the LoanApprovalSystem core (src/flaskapp.py)

Shallow embedding of the decision pipeline of `LoanApprovalSystem`:
`extract_from_files`, `evaluate_application`, `generate_explanation` and
`process_application`.  Python numeric fields (JSON numbers) are modelled as
rationals (`ℚ`), integers as `ℤ`, strings as `String`.  Python exceptions are
modelled with `Except`: the `ZeroDivisionError` raised by the DTI division when
gross income is 0 (the spec's error taxonomy calls this condition DataError),
and the `ValueError` raised by `datetime.strptime` on a malformed
`Date of Birth`.  The external text-generation call is a parameter
`svc : String → Except String String` from a prompt to either the returned
completion text (`response.choices[0].text`) or the exception message of a
failed call.
-/

/-- The JSON payload of one application.  In `process_application` the same
record serves as the applicant data (keys such as `'Total Monthly Debt
Obligations'`) and as the supporting-document data read by
`extract_from_files` (keys `'Monthly Gross Income'` and `'Credit Score'`).
The two supporting-document keys may be absent from the JSON, hence `Option`. -/
structure LoanApplication where
  appId : String
  totalMonthlyDebtObligations : ℚ
  sectorOfEmployment : String
  numberOfExistingLoans : ℤ
  desiredLoanAmount : ℚ
  durationAtCurrentJob : ℚ
  historyOfBankruptcy : String
  dateOfBirth : String
  residencyStatus : String
  monthlyGrossIncome : Option ℚ
  creditScore : Option ℤ
  deriving DecidableEq, Repr

/-- Exceptions that `evaluate_application` can raise.  `dataError` is the
`ZeroDivisionError` from `application['Total Monthly Debt Obligations'] /
gross_income` when the extracted gross income is 0 — the condition the spec's
error taxonomy names DataError.  `dateParseError` is the `ValueError` from
`datetime.strptime(application['Date of Birth'], '%d/%m/%Y')` on a string that
does not parse in day/month/year format. -/
inductive EvalError where
  | dataError
  | dateParseError
  deriving DecidableEq, Repr

/-- The record returned by `process_application`:
`{'application_id': ..., 'result': ..., 'explanation': ...}`. -/
structure ProcessedResult where
  application_id : String
  result : String
  explanation : String
  deriving DecidableEq, Repr

instance {ε α : Type} [DecidableEq ε] [DecidableEq α] :
    DecidableEq (Except ε α) := fun a b =>
  match a, b with
  | Except.ok x, Except.ok y =>
    if h : x = y then isTrue (by rw [h]) else isFalse (by simp [h])
  | Except.ok _, Except.error _ => isFalse (by simp)
  | Except.error _, Except.ok _ => isFalse (by simp)
  | Except.error x, Except.error y =>
    if h : x = y then isTrue (by rw [h]) else isFalse (by simp [h])

/-- Model of Python `str.split(sep)` for a one-character separator, over the
character list of the string: splits at every occurrence of `sep`, keeping
empty fragments (so `"".split(sep) == ['']`). -/
def splitOnChar (sep : Char) : List Char → List (List Char)
  | [] => [[]]
  | c :: rest =>
    if c = sep then [] :: splitOnChar sep rest
    else
      match splitOnChar sep rest with
      | [] => [[c]]
      | h :: t => (c :: h) :: t

/-- Model of Python `str.split('. ')`: splits at every non-overlapping
occurrence of the two-character separator `". "`, scanning left to right,
keeping empty fragments. -/
def splitDotSpace : List Char → List (List Char)
  | '.' :: ' ' :: rest => [] :: splitDotSpace rest
  | c :: rest =>
    match splitDotSpace rest with
    | [] => [[c]]
    | h :: t => (c :: h) :: t
  | [] => [[]]

/-- `s.split('. ')` as a function on strings. -/
def pySplitDotSpace (s : String) : List String :=
  (splitDotSpace s.toList).map (fun l => String.mk l)

/-- Model of Python `str.strip()`: remove leading and trailing whitespace. -/
def pyStrip (s : String) : String :=
  String.mk (((s.toList.dropWhile Char.isWhitespace).reverse.dropWhile
    Char.isWhitespace).reverse)

/-- Does the string end with the given suffix (Python `str.endswith`)? -/
def pyEndsWith (s suffix : String) : Bool :=
  suffix.toList.isSuffixOf s.toList

/-- Parse a nonempty all-digit character list as a decimal natural number;
`none` otherwise. -/
def digitsToNat? (l : List Char) : Option ℕ :=
  if l ≠ [] ∧ l.all Char.isDigit then
    some (l.foldl (fun n c => 10 * n + (c.toNat - 48)) 0)
  else none

/-- Gregorian leap-year rule, used by `datetime` to validate a parsed date. -/
def isLeapYear (y : ℕ) : Bool :=
  (y % 4 == 0 && y % 100 != 0) || y % 400 == 0

/-- Number of days of month `m` in year `y` (Gregorian calendar). -/
def daysInMonth (y m : ℕ) : ℕ :=
  if m == 2 then (if isLeapYear y then 29 else 28)
  else if m == 4 || m == 6 || m == 9 || m == 11 then 30
  else 31

/-- Model of `datetime.strptime(s, '%d/%m/%Y')` (Python stdlib, not part of
src/): the string must be day `/` month `/` year with a 1–2 digit day, a 1–2
digit month and a 4 digit year, all decimal digits, and the three components
must form a valid calendar date (month 1–12, day 1–daysInMonth); otherwise a
`ValueError` is raised, modelled as `none`.  Returns (day, month, year). -/
def parseDMY (s : String) : Option (ℕ × ℕ × ℕ) :=
  match splitOnChar '/' s.toList with
  | [ds, ms, ys] =>
    match digitsToNat? ds, digitsToNat? ms, digitsToNat? ys with
    | some d, some m, some y =>
      if 1 ≤ ds.length ∧ ds.length ≤ 2 ∧ 1 ≤ ms.length ∧ ms.length ≤ 2 ∧
         ys.length = 4 ∧ 1 ≤ m ∧ m ≤ 12 ∧ 1 ≤ d ∧ d ≤ daysInMonth y m then
        some (d, m, y)
      else none
    | _, _, _ => none
  | _ => none

/-- `extract_from_files`: `json_data.get('Monthly Gross Income', 0)` and
`json_data.get('Credit Score', 0)` — both default to 0 when the key is absent. -/
def extract_from_files (json_data : LoanApplication) : ℚ × ℤ :=
  (json_data.monthlyGrossIncome.getD 0, json_data.creditScore.getD 0)

/-- The nine criterion labels, in the order `evaluate_application` inserts them
into `criteria_evaluation`. -/
def criteriaLabels : List String :=
  ["Debt-to-Income Ratio <= 0.43",
   "Credit Score >= 670",
   "Sector of Employment in Preferred List",
   "Number of Existing Loans < 5",
   "Loan Amount <= 60% of Annual Income",
   "Duration at Current Job >= 2 Years",
   "No History of Bankruptcy",
   "Age Between 18 and 70",
   "Residency Status as Permanent Resident or Citizen"]

/-- The `criteria_evaluation` mapping built by `evaluate_application`
(lines 59–70 of src/flaskapp.py), once the gross income is nonzero and the
date of birth has parsed to `birthYear`.  A Python dict with string keys and
insertion order is modelled as an association list. -/
def criteriaFor (application : LoanApplication) (gross_income : ℚ)
    (credit_score : ℤ) (birthYear currentYear : ℤ) : List (String × Bool) :=
  let dti := application.totalMonthlyDebtObligations / gross_income
  let age := currentYear - birthYear
  [("Debt-to-Income Ratio <= 0.43", decide (dti ≤ 43 / 100)),
   ("Credit Score >= 670", decide (670 ≤ credit_score)),
   ("Sector of Employment in Preferred List",
     ["Government Jobs", "Healthcare", "IT", "Finance"].contains
       application.sectorOfEmployment),
   ("Number of Existing Loans < 5", decide (application.numberOfExistingLoans < 5)),
   ("Loan Amount <= 60% of Annual Income",
     decide (application.desiredLoanAmount ≤ 6 / 10 * (12 * gross_income))),
   ("Duration at Current Job >= 2 Years", decide (2 ≤ application.durationAtCurrentJob)),
   ("No History of Bankruptcy", application.historyOfBankruptcy == "No"),
   ("Age Between 18 and 70", decide (18 ≤ age ∧ age ≤ 70)),
   ("Residency Status as Permanent Resident or Citizen",
     ["Permanent Resident", "Citizen"].contains application.residencyStatus)]

/-- `rules_passed`: the loop at lines 72–74 counting the true entries of
`criteria_evaluation`. -/
def rulesPassed (criteria_evaluation : List (String × Bool)) : ℕ :=
  criteria_evaluation.countP (fun kv => kv.2)

/-- The Decision Aggregator, line 76:
`decision = 'Approved' if rules_passed >= 8 else 'Declined'`. -/
def aggregateDecision (criteria_evaluation : List (String × Bool)) : String :=
  if 8 ≤ rulesPassed criteria_evaluation then "Approved" else "Declined"

/-- `evaluate_application(application, json_data)`.  The division
`application['Total Monthly Debt Obligations'] / gross_income` at line 55
raises `ZeroDivisionError` when `gross_income` is 0 (there is no float
infinity or NaN in Python true division by zero): modelled as
`Except.error .dataError` — the method never reaches the decision in that
case.  `datetime.strptime` at line 67 raises `ValueError` on a malformed date
string: modelled as `Except.error .dateParseError`.  `currentYear` models
`datetime.now().year`. -/
def evaluate_application (application json_data : LoanApplication)
    (currentYear : ℤ) : Except EvalError (String × List (String × Bool)) :=
  let gross_income := (extract_from_files json_data).1
  let credit_score := (extract_from_files json_data).2
  if gross_income = 0 then Except.error EvalError.dataError
  else
    match parseDMY application.dateOfBirth with
    | none => Except.error EvalError.dateParseError
    | some (_, _, y) =>
      let criteria_evaluation :=
        criteriaFor application gross_income credit_score (Int.ofNat y) currentYear
      Except.ok (aggregateDecision criteria_evaluation, criteria_evaluation)

/-- `criteria_details` (line 81): one line per criterion,
`"- <label>: Met"` or `"- <label>: Not Met"`, joined with newlines. -/
def criteriaDetails (criteria_evaluation : List (String × Bool)) : String :=
  String.intercalate "\n" (criteria_evaluation.map (fun kv =>
    "- " ++ kv.1 ++ ": " ++ (if kv.2 then "Met" else "Not Met")))

/-- Rendering of the application record interpolated into the prompt f-string
(`{application}` — Python's dict repr).  Its exact shape feeds only the
external service; no claim depends on it, only on its being a function of the
application. -/
def showApplication (a : LoanApplication) : String :=
  a.appId ++ "|" ++ toString a.totalMonthlyDebtObligations ++ "|" ++
  a.sectorOfEmployment ++ "|" ++ toString a.numberOfExistingLoans ++ "|" ++
  toString a.desiredLoanAmount ++ "|" ++ toString a.durationAtCurrentJob ++ "|" ++
  a.historyOfBankruptcy ++ "|" ++ a.dateOfBirth ++ "|" ++ a.residencyStatus

/-- The prompt f-string of `generate_explanation` (lines 82–88). -/
def buildPrompt (application : LoanApplication) (decision : String)
    (criteria_details : String) : String :=
  "\n        Based on the following criteria evaluation, provide a concise, three-sentence explanation for why this specific loan application was "
  ++ decision.toLower ++
  ".\n        Decision: " ++ decision ++
  ". \n        Application details: " ++ showApplication application ++
  "\n        Criteria evaluation:\n        " ++ criteria_details ++ "\n        "

/-- `generate_explanation` (lines 79–103).  `svc` is the external
text-generation call: it receives the prompt and yields either the completion
text `response.choices[0].text` or the raised exception's message.  On
success the text is stripped, split on the literal `". "`, the first three
fragments are joined back with `". "` and a `"."` is appended (line 99:
`'. '.join(explanation_sentences[:3]) + '.'`).  Any exception of the external
call is caught and converted to the fixed fallback string. -/
def generate_explanation (svc : String → Except String String)
    (application : LoanApplication) (decision : String)
    (criteria_evaluation : List (String × Bool)) : String :=
  match svc (buildPrompt application decision (criteriaDetails criteria_evaluation)) with
  | Except.ok text =>
    String.intercalate ". " ((pySplitDotSpace (pyStrip text)).take 3) ++ "."
  | Except.error _ => "Explanation not available"

/-- `process_application` (lines 105–109): evaluate (the same record is passed
as `application` and as `json_data`), generate the explanation, assemble the
result record.  An exception from `evaluate_application` propagates to the
caller uncaught. -/
def process_application (svc : String → Except String String)
    (currentYear : ℤ) (application : LoanApplication) :
    Except EvalError ProcessedResult :=
  match evaluate_application application application currentYear with
  | Except.error e => Except.error e
  | Except.ok (decision, criteria_evaluation) =>
    Except.ok { application_id := application.appId,
                result := decision,
                explanation :=
                  generate_explanation svc application decision criteria_evaluation }

/-- Modelled from the spec: the Explanation Generator's post-processing as the
spec words it — "split the returned text on sentence boundaries (the literal
delimiter \". \") and join back the first three fragments, appending a
trailing period if the result does not already end with one".  Used only to
compare against the source's unconditional append. -/
def conciseExplanationSpec (text : String) : String :=
  let joined := String.intercalate ". " ((pySplitDotSpace (pyStrip text)).take 3)
  if pyEndsWith joined "." then joined else joined ++ "."

/-- A concrete well-formed application: gross income 3000, DTI 0.3, credit
score 700, sector IT, 2 loans, loan amount 40% of annual income, 3 years at
job, no bankruptcy, born 1990, citizen. -/
def sampleApp : LoanApplication :=
  { appId := "app-001"
    totalMonthlyDebtObligations := 900
    sectorOfEmployment := "IT"
    numberOfExistingLoans := 2
    desiredLoanAmount := 14400
    durationAtCurrentJob := 3
    historyOfBankruptcy := "No"
    dateOfBirth := "15/06/1990"
    residencyStatus := "Citizen"
    monthlyGrossIncome := some 3000
    creditScore := some 700 }

/-- A payload whose supporting-document keys (`'Monthly Gross Income'`,
`'Credit Score'`) are both absent. -/
def absentFieldsDoc : LoanApplication :=
  { sampleApp with monthlyGrossIncome := none, creditScore := none }

/-- Same as `sampleApp` but the `'Date of Birth'` string is not in
day/month/year format. -/
def badDobApp : LoanApplication :=
  { sampleApp with dateOfBirth := "June 15, 1990" }

/-- Same as `sampleApp` but with a sector outside the allow-list: a malformed
enumeration, which evaluates to a false criterion rather than erroring. -/
def retailApp : LoanApplication :=
  { sampleApp with sectorOfEmployment := "Retail" }

/-- An external call that always fails (network error / timeout):
`client.completions.create` raises. -/
def failingSvc : String → Except String String :=
  fun _ => Except.error "network timeout"

/-- A deterministic mocked external call whose returned text already ends
with a period and contains no `". "` occurrence. -/
def okPeriodSvc : String → Except String String :=
  fun _ => Except.ok "All nine criteria were satisfied."

/-- A criteria mapping over the nine fixed labels with exactly 8 true
entries (the Age criterion false). -/
def eightOfNine : List (String × Bool) :=
  criteriaLabels.map (fun k => (k, k ≠ "Age Between 18 and 70"))

example : parseDMY "15/06/1990" = some (15, 6, 1990) := by decide

example : extract_from_files sampleApp = (3000, 700) := by decide

/-- Helper: once the extracted gross income is nonzero and the date of birth
parses, `evaluate_application` returns the criteria mapping built by
`criteriaFor` together with the aggregated decision. -/
theorem evaluate_application_ok (application json_data : LoanApplication)
    (currentYear : ℤ) (d m y : ℕ)
    (hinc : (extract_from_files json_data).1 ≠ 0)
    (hdob : parseDMY application.dateOfBirth = some (d, m, y)) :
    evaluate_application application json_data currentYear =
      Except.ok
        (aggregateDecision
          (criteriaFor application (extract_from_files json_data).1
            (extract_from_files json_data).2 (Int.ofNat y) currentYear),
         criteriaFor application (extract_from_files json_data).1
           (extract_from_files json_data).2 (Int.ofNat y) currentYear) := by
  simp only [evaluate_application]
  rw [if_neg hinc, hdob]

/-- C1: for every criteria mapping, the Decision Aggregator returns
`"Approved"` if and only if the count of true entries is at least 8 (the
threshold is inclusive), and the decision depends on the count alone: two
mappings with equal counts of true entries get the same decision, so no
criterion is weighted differently. -/
theorem aggregateDecision_approved_iff_count (l l2 : List (String × Bool))
    (hcount : rulesPassed l = rulesPassed l2) :
    (aggregateDecision l = "Approved" ↔ 8 ≤ rulesPassed l) ∧
    aggregateDecision l = aggregateDecision l2 := by
  constructor
  · unfold aggregateDecision
    by_cases h : 8 ≤ rulesPassed l
    · rw [if_pos h]
      exact ⟨fun _ => h, fun _ => rfl⟩
    · rw [if_neg h]
      exact ⟨fun hc => absurd hc (by decide), fun hc => absurd hc h⟩
  · unfold aggregateDecision
    rw [hcount]

/-- Witness for C1 at a concrete mapping over the fixed nine criteria with
exactly 8 true entries: the boundary case is Approved. -/
theorem aggregateDecision_approved_iff_count_witness :
    rulesPassed eightOfNine = 8 ∧ aggregateDecision eightOfNine = "Approved" :=
  ⟨by decide,
   (aggregateDecision_approved_iff_count eightOfNine eightOfNine rfl).1.mpr
     (by decide)⟩

/-- C2: whenever the supporting-document monthly gross income extracted by
`extract_from_files` is 0 (including when the key is absent and the value
defaults to 0), `evaluate_application` fails with the DataError of the error
taxonomy — the `ZeroDivisionError` of the DTI division — and never returns a
decision or a criteria mapping; with the division raising, no infinite or
NaN ratio is ever produced. -/
theorem evaluate_application_zero_income (application json_data : LoanApplication)
    (currentYear : ℤ) (h : (extract_from_files json_data).1 = 0) :
    evaluate_application application json_data currentYear =
      Except.error EvalError.dataError := by
  simp only [evaluate_application]
  rw [if_pos h]

/-- Witness for C2: a payload with the income key absent extracts 0 and makes
evaluation fail with the DataError. -/
theorem evaluate_application_zero_income_witness :
    (extract_from_files absentFieldsDoc).1 = 0 ∧
    evaluate_application sampleApp absentFieldsDoc 2024 =
      Except.error EvalError.dataError :=
  ⟨by decide,
   evaluate_application_zero_income sampleApp absentFieldsDoc 2024 (by decide)⟩

/-- C3: whenever the external text-generation call fails (raises), the
Explanation Generator returns exactly the string
`"Explanation not available"`; being a total function into `String`, it never
propagates the failure to its caller. -/
theorem generate_explanation_fallback (svc : String → Except String String)
    (application : LoanApplication) (decision : String)
    (criteria_evaluation : List (String × Bool)) (msg : String)
    (h : svc (buildPrompt application decision
        (criteriaDetails criteria_evaluation)) = Except.error msg) :
    generate_explanation svc application decision criteria_evaluation =
      "Explanation not available" := by
  unfold generate_explanation
  rw [h]

/-- Witness for C3: a service that always fails yields the fallback string. -/
theorem generate_explanation_fallback_witness :
    failingSvc (buildPrompt sampleApp "Approved" (criteriaDetails [])) =
      Except.error "network timeout" ∧
    generate_explanation failingSvc sampleApp "Approved" [] =
      "Explanation not available" :=
  ⟨rfl,
   generate_explanation_fallback failingSvc sampleApp "Approved" []
     "network timeout" rfl⟩

/-- C6: whenever the supporting document lacks the monthly gross income
field, `extract_from_files` substitutes 0 for it, and likewise, whenever it
lacks the credit score field, 0 is substituted for that — each field
independently of the other's presence; being a total function, the
extraction raises no error. -/
theorem extract_from_files_defaults (json_data : LoanApplication) :
    (json_data.monthlyGrossIncome = none →
      (extract_from_files json_data).1 = 0) ∧
    (json_data.creditScore = none →
      (extract_from_files json_data).2 = 0) := by
  unfold extract_from_files
  constructor
  · intro h1
    rw [h1]
    rfl
  · intro h2
    rw [h2]
    rfl

/-- Witness for C6 on concrete payloads: one missing only the income key
(credit score present), one missing only the credit score key (income
present), and one missing both. -/
theorem extract_from_files_defaults_witness :
    ({ sampleApp with monthlyGrossIncome := none } :
        LoanApplication).creditScore = some 700 ∧
    (extract_from_files { sampleApp with monthlyGrossIncome := none }).1 = 0 ∧
    ({ sampleApp with creditScore := none } :
        LoanApplication).monthlyGrossIncome = some 3000 ∧
    (extract_from_files { sampleApp with creditScore := none }).2 = 0 ∧
    (extract_from_files absentFieldsDoc).1 = 0 ∧
    (extract_from_files absentFieldsDoc).2 = 0 :=
  ⟨rfl,
   (extract_from_files_defaults { sampleApp with monthlyGrossIncome := none }).1
     rfl,
   rfl,
   (extract_from_files_defaults { sampleApp with creditScore := none }).2 rfl,
   (extract_from_files_defaults absentFieldsDoc).1 rfl,
   (extract_from_files_defaults absentFieldsDoc).2 rfl⟩

/-- Helper: flipping one entry of a criteria mapping from false to true
increases the count of passed rules by exactly one. -/
theorem rulesPassed_flip (l1 l2 : List (String × Bool)) (k : String) :
    rulesPassed (l1 ++ (k, true) :: l2) = rulesPassed (l1 ++ (k, false) :: l2) + 1 := by
  unfold rulesPassed
  simp [List.countP_append, List.countP_cons]
  omega

/-- C10: the decision is monotone in the criteria: if a mapping containing
some criterion with value false aggregates to Approved, the same mapping with
that single criterion flipped to true (all others unchanged) still aggregates
to Approved — increasing the count of true entries never turns Approved into
Declined. -/
theorem aggregateDecision_monotone (l1 l2 : List (String × Bool)) (k : String)
    (h : aggregateDecision (l1 ++ (k, false) :: l2) = "Approved") :
    aggregateDecision (l1 ++ (k, true) :: l2) = "Approved" := by
  unfold aggregateDecision at h ⊢
  rw [rulesPassed_flip]
  split at h
  next hc => rw [if_pos (by omega)]
  next => exact absurd h (by decide)

/-- Witness for C10: a concrete Approved mapping with a false Age entry stays
Approved when that entry is flipped to true. -/
theorem aggregateDecision_monotone_witness :
    aggregateDecision
      ((criteriaLabels.take 8).map (fun k => (k, true)) ++
        [("Age Between 18 and 70", false)]) = "Approved" ∧
    aggregateDecision
      ((criteriaLabels.take 8).map (fun k => (k, true)) ++
        [("Age Between 18 and 70", true)]) = "Approved" :=
  ⟨by decide,
   aggregateDecision_monotone ((criteriaLabels.take 8).map (fun k => (k, true)))
     [] "Age Between 18 and 70" (by decide)⟩

/-- C4: for every application with extracted monthly gross income > 0 whose
date of birth parses in day/month/year format (the data-model invariant on
`Application`), `evaluate_application` returns a criteria mapping with
exactly nine entries whose labels are, in order: Debt-to-Income Ratio,
Credit Score, Sector of Employment, Number of Existing Loans, Loan Amount vs
Annual Income, Duration at Current Job, History of Bankruptcy, Age,
Residency Status. -/
theorem evaluate_application_nine_criteria (application json_data : LoanApplication)
    (currentYear : ℤ) (d m y : ℕ)
    (hinc : 0 < (extract_from_files json_data).1)
    (hdob : parseDMY application.dateOfBirth = some (d, m, y)) :
    ∃ decision criteria_evaluation,
      evaluate_application application json_data currentYear =
        Except.ok (decision, criteria_evaluation) ∧
      criteria_evaluation.map Prod.fst = criteriaLabels ∧
      criteria_evaluation.length = 9 := by
  refine ⟨_, _,
    evaluate_application_ok application json_data currentYear d m y hinc.ne' hdob,
    ?_, ?_⟩
  · simp [criteriaFor, criteriaLabels]
  · simp [criteriaFor]

/-- Witness for C4 at the concrete sample application with income 3000. -/
theorem evaluate_application_nine_criteria_witness :
    0 < (extract_from_files sampleApp).1 ∧
    parseDMY sampleApp.dateOfBirth = some (15, 6, 1990) ∧
    ∃ decision criteria_evaluation,
      evaluate_application sampleApp sampleApp 2024 =
        Except.ok (decision, criteria_evaluation) ∧
      criteria_evaluation.map Prod.fst = criteriaLabels ∧
      criteria_evaluation.length = 9 :=
  ⟨by decide, by decide,
   evaluate_application_nine_criteria sampleApp sampleApp 2024 15 6 1990
     (by decide) (by decide)⟩

/-- Helper: appending `"."` always yields a string ending with `"."`. -/
theorem pyEndsWith_append_dot (s : String) : pyEndsWith (s ++ ".") "." = true := by
  unfold pyEndsWith
  show (".".toList.isSuffixOf (s ++ ".").data) = true
  rw [String.data_append]
  simp [List.isSuffixOf, List.isPrefixOf]

/-- C5 (amended): for every text returned by the external service, the
Explanation Generator splits the stripped text on the literal delimiter
`". "`, joins back the first three fragments with `". "`, and appends a
trailing period unconditionally (so the result always ends with a period,
but a returned text already ending in one can produce a double period). -/
theorem generate_explanation_truncates (svc : String → Except String String)
    (application : LoanApplication) (decision : String)
    (criteria_evaluation : List (String × Bool)) (text : String)
    (h : svc (buildPrompt application decision
        (criteriaDetails criteria_evaluation)) = Except.ok text) :
    generate_explanation svc application decision criteria_evaluation =
      String.intercalate ". " ((pySplitDotSpace (pyStrip text)).take 3) ++ "." ∧
    pyEndsWith (generate_explanation svc application decision criteria_evaluation)
      "." = true := by
  have hg : generate_explanation svc application decision criteria_evaluation =
      String.intercalate ". " ((pySplitDotSpace (pyStrip text)).take 3) ++ "." := by
    unfold generate_explanation
    rw [h]
  exact ⟨hg, hg ▸ pyEndsWith_append_dot _⟩

/-- Witness for C5 (amended): a four-sentence completion is truncated to its
first three fragments and a period is appended. -/
theorem generate_explanation_truncates_witness :
    (fun _ => Except.ok "One. Two. Three. Four" :
      String → Except String String) (buildPrompt sampleApp "Approved"
        (criteriaDetails [])) = Except.ok "One. Two. Three. Four" ∧
    generate_explanation (fun _ => Except.ok "One. Two. Three. Four") sampleApp
        "Approved" [] = "One. Two. Three." ∧
    pyEndsWith (generate_explanation (fun _ => Except.ok "One. Two. Three. Four")
        sampleApp "Approved" []) "." = true :=
  ⟨rfl,
   (generate_explanation_truncates (fun _ => Except.ok "One. Two. Three. Four")
       sampleApp "Approved" [] "One. Two. Three. Four" rfl).1.trans (by decide),
   (generate_explanation_truncates (fun _ => Except.ok "One. Two. Three. Four")
       sampleApp "Approved" [] "One. Two. Three. Four" rfl).2⟩

/-- C5 counterexample: a returned text that already ends with a period does
not yield a result ending in exactly one period — line 99 appends `'.'`
unconditionally, producing a double period, so the result differs from the
conditional-append behaviour the claim describes (`conciseExplanationSpec`). -/
theorem generate_explanation_double_period :
    generate_explanation okPeriodSvc sampleApp "Approved" [] =
      "All nine criteria were satisfied.." ∧
    conciseExplanationSpec "All nine criteria were satisfied." =
      "All nine criteria were satisfied." ∧
    generate_explanation okPeriodSvc sampleApp "Approved" [] ≠
      conciseExplanationSpec "All nine criteria were satisfied." ∧
    pyEndsWith (generate_explanation okPeriodSvc sampleApp "Approved" []) ".." =
      true := by
  refine ⟨by decide, by decide, by decide, by decide⟩

/-- C7: for every application whose date of birth parses as day/month/year to
`(d, m, y)` (and whose extracted gross income is positive, so evaluation
returns), the Age criterion entry of the returned mapping is true if and only
if `18 ≤ currentYear - y ≤ 70`: calendar-year subtraction, the month and day
of birth ignored, both bounds inclusive. -/
theorem age_criterion_year_subtraction (application json_data : LoanApplication)
    (currentYear : ℤ) (d m y : ℕ)
    (hinc : 0 < (extract_from_files json_data).1)
    (hdob : parseDMY application.dateOfBirth = some (d, m, y)) :
    ∃ decision criteria_evaluation,
      evaluate_application application json_data currentYear =
        Except.ok (decision, criteria_evaluation) ∧
      criteria_evaluation[7]? =
        some ("Age Between 18 and 70",
          decide (18 ≤ currentYear - Int.ofNat y ∧ currentYear - Int.ofNat y ≤ 70)) ∧
      (decide (18 ≤ currentYear - Int.ofNat y ∧ currentYear - Int.ofNat y ≤ 70) = true ↔
        (18 ≤ currentYear - Int.ofNat y ∧ currentYear - Int.ofNat y ≤ 70)) := by
  refine ⟨_, _,
    evaluate_application_ok application json_data currentYear d m y hinc.ne' hdob,
    rfl, by simp⟩

/-- Witness for C7: born 1990, current year 2024, age 34, criterion true. -/
theorem age_criterion_year_subtraction_witness :
    0 < (extract_from_files sampleApp).1 ∧
    parseDMY sampleApp.dateOfBirth = some (15, 6, 1990) ∧
    ∃ decision criteria_evaluation,
      evaluate_application sampleApp sampleApp 2024 =
        Except.ok (decision, criteria_evaluation) ∧
      criteria_evaluation[7]? =
        some ("Age Between 18 and 70",
          decide (18 ≤ (2024 : ℤ) - Int.ofNat 1990 ∧
            (2024 : ℤ) - Int.ofNat 1990 ≤ 70)) ∧
      (decide (18 ≤ (2024 : ℤ) - Int.ofNat 1990 ∧
          (2024 : ℤ) - Int.ofNat 1990 ≤ 70) = true ↔
        (18 ≤ (2024 : ℤ) - Int.ofNat 1990 ∧ (2024 : ℤ) - Int.ofNat 1990 ≤ 70)) :=
  ⟨by decide, by decide,
   age_criterion_year_subtraction sampleApp sampleApp 2024 15 6 1990
     (by decide) (by decide)⟩

/-- C8: `process_application` is deterministic: two invocations with identical
application data, identical current year and the same (deterministic, mocked)
external text-generation service produce the same `ProcessedResult` — same
application identifier, decision and explanation text; with positive income
and a parsing date of birth the result is a success. -/
theorem process_application_deterministic (svc : String → Except String String)
    (currentYear : ℤ) (a1 a2 : LoanApplication) (d m y : ℕ)
    (hsame : a1 = a2)
    (hinc : 0 < (extract_from_files a1).1)
    (hdob : parseDMY a1.dateOfBirth = some (d, m, y)) :
    ∃ r : ProcessedResult,
      process_application svc currentYear a1 = Except.ok r ∧
      process_application svc currentYear a2 = Except.ok r ∧
      r.application_id = a1.appId := by
  subst hsame
  have h := evaluate_application_ok a1 a1 currentYear d m y hinc.ne' hdob
  unfold process_application
  rw [h]
  exact ⟨_, rfl, rfl, rfl⟩

/-- Witness for C8: two invocations on the concrete sample application with a
deterministic mocked service yield one and the same success record. -/
theorem process_application_deterministic_witness :
    ∃ r : ProcessedResult,
      process_application okPeriodSvc 2024 sampleApp = Except.ok r ∧
      process_application okPeriodSvc 2024 sampleApp = Except.ok r ∧
      r.application_id = sampleApp.appId :=
  process_application_deterministic okPeriodSvc 2024 sampleApp sampleApp 15 6 1990
    rfl (by decide) (by decide)

/-- C9: there is an application with positive extracted gross income whose
`'Date of Birth'` string does not parse in day/month/year format, and on it
`evaluate_application` raises (the `ValueError` of `strptime`) instead of
returning a criteria mapping — while an application differing only in a
malformed enumeration (sector `"Retail"`) still evaluates successfully.  So
the evaluator is not total even under the positive-income precondition. -/
theorem evaluate_application_malformed_dob :
    0 < (extract_from_files badDobApp).1 ∧
    parseDMY badDobApp.dateOfBirth = none ∧
    evaluate_application badDobApp badDobApp 2024 =
      Except.error EvalError.dateParseError ∧
    (evaluate_application retailApp retailApp 2024).toOption.isSome = true := by
  refine ⟨by decide, by decide, by decide, by decide⟩

/-- The spec's second end-to-end example: credit score 600 and sector
`"Retail"` (2 criteria false, 7 true). -/
def declinedApp : LoanApplication :=
  { sampleApp with sectorOfEmployment := "Retail", creditScore := some 600 }

/-- End-to-end check: `sampleApp` satisfies all nine criteria and is
Approved in year 2024. -/
example :
    evaluate_application sampleApp sampleApp 2024 =
      Except.ok ("Approved", criteriaLabels.map (fun k => (k, true))) := by
  have h := evaluate_application_ok sampleApp sampleApp 2024 15 6 1990
    (by decide) (by decide)
  have hc : criteriaFor sampleApp (extract_from_files sampleApp).1
      (extract_from_files sampleApp).2 (Int.ofNat 1990) 2024 =
      criteriaLabels.map (fun k => (k, true)) := by
    have b1 : decide ((900 : ℚ) / 3000 ≤ 43 / 100) = true := by
      rw [decide_eq_true_eq]; norm_num
    have b5 : decide ((14400 : ℚ) ≤ 6 / 10 * (12 * (3000 : ℚ))) = true := by
      rw [decide_eq_true_eq]; norm_num
    simp +decide [criteriaFor, criteriaLabels, sampleApp, extract_from_files,
      b1, b5]
  rw [h, hc]
  decide

/-- End-to-end check: with credit score 600 and sector `"Retail"` only 7
criteria hold and the application is Declined (7 < 8). -/
example :
    evaluate_application declinedApp declinedApp 2024 =
      Except.ok ("Declined",
        criteriaLabels.zip
          [true, false, false, true, true, true, true, true, true]) := by
  have h := evaluate_application_ok declinedApp declinedApp 2024 15 6 1990
    (by decide) (by decide)
  have hc : criteriaFor declinedApp (extract_from_files declinedApp).1
      (extract_from_files declinedApp).2 (Int.ofNat 1990) 2024 =
      criteriaLabels.zip
        [true, false, false, true, true, true, true, true, true] := by
    have b1 : decide ((900 : ℚ) / 3000 ≤ 43 / 100) = true := by
      rw [decide_eq_true_eq]; norm_num
    have b5 : decide ((14400 : ℚ) ≤ 6 / 10 * (12 * (3000 : ℚ))) = true := by
      rw [decide_eq_true_eq]; norm_num
    simp +decide [criteriaFor, criteriaLabels, declinedApp, sampleApp,
      extract_from_files, b1, b5]
  rw [h, hc]
  decide
